import Mathlib

/-!
Verification development for the agentapps repository
(src/Steamlit/agentapps_ui.py and src/Projects/Powershell_Tool.py).

The Python code is shallowly embedded: JSON documents become an inductive
`Json` type (the value returned by Python's json.load), the Streamlit
session state becomes an explicit `SessionState` record, and every
operation of the configuration store (save_data, load_data,
recreate_custom_tool, recreate_agent_from_config, the session-state
initialization loops, and the create/edit/delete tab actions) becomes a
total Lean function.  Python exceptions are modelled with
`Except String`: an `Except.error` value is an exception that propagates
out of the modelled code, and caught exceptions are matched on where the
source has try/except.  External library calls (Agent, OpenAIChat, Tool
construction; subprocess.run; exec) are modelled as record constructors
or oracle parameters, since their behaviour is outside this repository.
-/

/-- A JSON value as produced by Python's json.load: null, booleans,
numbers (modelled exactly as rationals; Python round-trips floats
exactly through json.dump/json.load), strings, arrays, and objects
(Python dicts with string keys; keys are unique after parsing). -/
inductive Json where
  | null : Json
  | bool (b : Bool) : Json
  | num (q : Rat) : Json
  | str (s : String) : Json
  | arr (xs : List Json) : Json
  | obj (fs : List (String × Json)) : Json
deriving BEq

/-- Python truthiness of a json.load value: None, False, 0, empty
string, empty list and empty dict are falsy, everything else truthy. -/
def Json.truthy : Json → Bool
  | .null => false
  | .bool b => b
  | .num q => q != 0
  | .str s => s != ""
  | .arr xs => !xs.isEmpty
  | .obj fs => !fs.isEmpty

/-- Python subscript `x[k]` with a string key: on a dict it returns the
entry or raises KeyError; on any other json.load value it raises
TypeError (lists are only ever subscripted with string keys in the
modelled code, which raises). -/
def pySubscript : Json → String → Except String Json
  | .obj fs, k =>
      match fs.lookup k with
      | some v => Except.ok v
      | none => Except.error "KeyError"
  | _, _ => Except.error "TypeError"

/-- Python `x.get(k, d)` on a dict; any non-dict value has no `.get`
attribute and raises AttributeError. -/
def pyGetD : Json → String → Json → Except String Json
  | .obj fs, k, d => Except.ok ((fs.lookup k).getD d)
  | _, _, _ => Except.error "AttributeError"

/-- Python `k in x` for a string key on a dict (used only where the
source has already established that `x` is a dict). -/
def hasKey : Json → String → Bool
  | .obj fs, k => fs.any (fun p => p.1 == k)
  | _, _ => false

/-- Python iteration `for v in x`: a list yields its elements, a string
yields its one-character substrings, a dict yields its keys, and the
remaining values raise TypeError. -/
def pyIter : Json → Except String (List Json)
  | .arr xs => Except.ok xs
  | .str s => Except.ok (s.data.map (fun c => Json.str (String.mk [c])))
  | .obj fs => Except.ok (fs.map (fun p => Json.str p.1))
  | _ => Except.error "TypeError"

/-- Whether a json.load value is hashable in Python (usable as a dict
key or probed with `in` against a dict): lists and dicts are not. -/
def pyHashable : Json → Bool
  | .arr _ => false
  | .obj _ => false
  | _ => true

/-- Python `==` on json.load values.  Numbers and booleans compare with
coercion (True == 1); values of unrelated kinds are unequal; lists and
dicts compare structurally (modelled by the structural equality of the
`Json` tree, which agrees with Python on every value this program
writes, since the program writes object keys in one fixed order). -/
def pyEq (a b : Json) : Bool :=
  match a, b with
  | .str x, .str y => x == y
  | .num x, .num y => x == y
  | .bool x, .bool y => x == y
  | .bool x, .num y => (if x then (1 : Rat) else 0) == y
  | .num x, .bool y => x == (if y then (1 : Rat) else 0)
  | .null, .null => true
  | .arr x, .arr y => Json.arr x == Json.arr y
  | .obj x, .obj y => Json.obj x == Json.obj y
  | _, _ => false

/-- Whether the character list `needle` occurs contiguously inside
`hay` (Python's `sub in str` containment test). -/
def charsContain (hay needle : List Char) : Bool :=
  match hay with
  | [] => needle.isEmpty
  | _ :: t => needle.isPrefixOf hay || charsContain t needle

/-- Python membership `x in c`: element equality for lists, substring
test for strings (TypeError when `x` is not a string), key membership
for dicts (TypeError when `x` is unhashable), TypeError otherwise. -/
def pyIn (x : Json) (c : Json) : Except String Bool :=
  match c with
  | .arr xs => Except.ok (xs.any (pyEq x))
  | .str s =>
      match x with
      | .str t => Except.ok (charsContain s.data t.data)
      | _ => Except.error "TypeError"
  | .obj fs =>
      if pyHashable x then Except.ok (fs.any (fun p => pyEq (Json.str p.1) x))
      else Except.error "TypeError"
  | _ => Except.error "TypeError"

/-- Map a fallible reader over a list, in order, failing on the first
failure. -/
def mapOption {α β : Type} (f : α → Option β) : List α → Option (List β)
  | [] => some []
  | x :: xs => do
      let y ← f x
      let ys ← mapOption f xs
      some (y :: ys)

/-- Map a raising operation over a list, in order, propagating the
first raised exception. -/
def mapExcept {α β : Type} (f : α → Except String β) : List α → Except String (List β)
  | [] => Except.ok []
  | x :: xs => do
      let y ← f x
      let ys ← mapExcept f xs
      Except.ok (y :: ys)

/-- A live DynamicTool object, as constructed by recreate_custom_tool
(src/Steamlit/agentapps_ui.py lines 276-311): the constructor stores
the six configuration values.  (The create-tool tab's DynamicTool at
lines 716-721 takes param_description via closure instead of a field;
the data carried is the same and its internals are never read back.) -/
structure ToolObj where
  name : Json
  description : Json
  param_name : Json
  param_type : Json
  param_description : Json
  function_code : Json
deriving BEq

/-- A value of the available_tools dict built at lines 240-248 and
481-489: either one of the three built-in tool objects (identified by
its registration name) or a live custom tool object. -/
inductive ToolRef where
  | builtin (name : String) : ToolRef
  | custom (t : ToolObj) : ToolRef
deriving BEq

/-- A live Agent object, modelled by the arguments the code passes to
the external Agent constructor at lines 254-266 (the constructor
itself belongs to the external agentapps library). -/
structure AgentObj where
  name : Json
  role : Json
  model_id : Json
  api_key : Json
  tools : List ToolRef
  instructions : Json
  show_tool_calls : Json
  markdown : Json
  temperature : Json
deriving BEq

/-- A live team object (an external Agent constructed with a `team`
argument, lines 375-381; show_tool_calls and markdown are passed as
the literal True there). -/
structure TeamObj where
  name : Json
  team : List AgentObj
  instructions : Json
deriving BEq

/-- One entry of st.session_state.custom_tools: the spread
`\x7b**tool_config, 'tool_obj': tool_obj\x7d` of line 341, i.e. the original
config dict plus the live tool object. -/
structure ToolState where
  config : Json
  obj : ToolObj
deriving BEq

/-- One entry of st.session_state.agents, as appended at lines 352-362
and 552-573: eight data fields plus the live agent object. -/
structure AgentState where
  name : Json
  role : Json
  tools : Json
  instructions : Json
  model : Json
  temperature : Json
  show_tool_calls : Json
  markdown : Json
  agent : AgentObj
deriving BEq

/-- One entry of st.session_state.teams, as appended at lines 383-389
and 651-657. -/
structure TeamState where
  name : Json
  members : Json
  instructions : Json
  workflow : Json
  team : TeamObj
deriving BEq

/-- A user-visible failure notice produced during activation: the
st.error call of recreate_custom_tool (line 315), the st.error call of
recreate_agent_from_config (line 270), or the st.warning of the team
loop (line 391).  Each message interpolates the record's name. -/
inductive Report where
  | toolError (name : Json) : Report
  | agentError (name : Json) : Report
  | teamWarning (name : Json) : Report
deriving BEq

/-- The modelled Streamlit session state: the four persisted
collections plus the activation reports (chat history and the editing
marker play no role in the claims). -/
structure SessionState where
  agents : List AgentState
  teams : List TeamState
  custom_tools : List ToolState
  api_key : Json
  reports : List Report
deriving BEq

/-- The built-in tools dict literal of lines 240-244 and 481-485:
Web Search, Web Scraper and Calculator, keyed by those names. -/
def builtinToolsList : List (Json × ToolRef) :=
  [(Json.str "Web Search", ToolRef.builtin "SearchSummaryTool"),
   (Json.str "Web Scraper", ToolRef.builtin "WebScraperTool"),
   (Json.str "Calculator", ToolRef.builtin "CalculatorTool")]

/-- The available_tools dict of lines 240-248: built-ins first, then
one assignment `available_tools[custom_tool['name']] = tool_obj` per
session custom tool, in order.  Assigning with an unhashable key
raises TypeError.  The dict is modelled as an assignment list; lookup
takes the latest assignment (Python dict overwrite semantics). -/
def availableTools (customs : List ToolState) : Except String (List (Json × ToolRef)) :=
  customs.foldlM
    (fun acc ct => do
      let n ← pySubscript ct.config "name"
      if pyHashable n then Except.ok (acc ++ [(n, ToolRef.custom ct.obj)])
      else Except.error "TypeError")
    builtinToolsList

/-- Dict lookup in the assignment-list model of available_tools: the
latest assignment with a key equal (by Python equality) to `k` wins,
mirroring dict overwrite. -/
def lookupTool (env : List (Json × ToolRef)) (k : Json) : Option ToolRef :=
  env.foldl (fun acc p => if pyEq p.1 k then some p.2 else acc) none

/-- recreate_custom_tool (lines 273-316).  The try block constructs a
DynamicTool from six subscripts of the config dict, in source order.
On an exception the handler itself subscripts tool_config['name'] to
format the error message, so a config that is not a dict, or lacks the
'name' key, re-raises out of the handler; otherwise the failure is
reported and None is returned. -/
def recreate_custom_tool (cfg : Json) : Except String (Option ToolObj × Option Report) :=
  let body : Except String ToolObj := do
    let n ← pySubscript cfg "name"
    let d ← pySubscript cfg "description"
    let pn ← pySubscript cfg "param_name"
    let pt ← pySubscript cfg "param_type"
    let pd ← pySubscript cfg "param_description"
    let fc ← pySubscript cfg "function_code"
    Except.ok ⟨n, d, pn, pt, pd, fc⟩
  match body with
  | Except.ok t => Except.ok (some t, none)
  | Except.error _ => do
      let n ← pySubscript cfg "name"
      Except.ok (none, some (Report.toolError n))

/-- recreate_agent_from_config (lines 236-271).  The try block builds
available_tools, resolves the agent's declared tool names against it —
`[available_tools[t] for t in agent_config['tools'] if t in available_tools]` —
silently dropping names with no entry (probing with an unhashable name
raises), then evaluates the Agent keyword arguments in source order.
The except handler formats agent_config['name'], so a config that is
not a dict or lacks 'name' re-raises; otherwise the failure is
reported and None returned. -/
def recreate_agent_from_config (customs : List ToolState) (api_key : Json) (cfg : Json) :
    Except String (Option AgentObj × Option Report) :=
  let body : Except String AgentObj := do
    let env ← availableTools customs
    let tlist ← pySubscript cfg "tools"
    let titems ← pyIter tlist
    let tools ← titems.foldlM
      (fun acc t =>
        if pyHashable t then
          Except.ok (match lookupTool env t with
            | some r => acc ++ [r]
            | none => acc)
        else Except.error "TypeError")
      ([] : List ToolRef)
    let n ← pySubscript cfg "name"
    let ro ← pySubscript cfg "role"
    let mid ← pyGetD cfg "model" (Json.str "gpt-4")
    let ins ← pySubscript cfg "instructions"
    let stc ← pyGetD cfg "show_tool_calls" (Json.bool true)
    let md ← pyGetD cfg "markdown" (Json.bool true)
    let tp ← pyGetD cfg "temperature" (Json.num 0.7)
    Except.ok ⟨n, ro, mid, api_key, tools, ins, stc, md, tp⟩
  match body with
  | Except.ok a => Except.ok (some a, none)
  | Except.error _ => do
      let n ← pySubscript cfg "name"
      Except.ok (none, some (Report.agentError n))

/-- The custom-tools reconstruction loop of lines 337-344: each config
is recreated in order; a truthy result is appended together with its
config, a None is skipped, and reports accumulate. -/
def toolsStage (cfgs : List Json) : Except String (List ToolState × List Report) :=
  cfgs.foldlM
    (fun acc cfg => do
      let (o, r) ← recreate_custom_tool cfg
      match o with
      | some t => Except.ok (acc.1 ++ [⟨cfg, t⟩], acc.2 ++ r.toList)
      | none => Except.ok (acc.1, acc.2 ++ r.toList))
    (([], []) : List ToolState × List Report)

/-- The agents reconstruction loop of lines 347-362: each config is
recreated; on success the session entry is built by re-subscripting
the config fields (which succeed, the recreation having already read
them), with the documented defaults for the optional fields. -/
def agentsStage (customs : List ToolState) (api_key : Json) (cfgs : List Json) :
    Except String (List AgentState × List Report) :=
  cfgs.foldlM
    (fun acc cfg => do
      let (o, r) ← recreate_agent_from_config customs api_key cfg
      match o with
      | some a => do
          let n ← pySubscript cfg "name"
          let ro ← pySubscript cfg "role"
          let ts ← pySubscript cfg "tools"
          let ins ← pySubscript cfg "instructions"
          let mid ← pyGetD cfg "model" (Json.str "gpt-4")
          let tp ← pyGetD cfg "temperature" (Json.num 0.7)
          let stc ← pyGetD cfg "show_tool_calls" (Json.bool true)
          let md ← pyGetD cfg "markdown" (Json.bool true)
          Except.ok (acc.1 ++ [⟨n, ro, ts, ins, mid, tp, stc, md, a⟩], acc.2 ++ r.toList)
      | none => Except.ok (acc.1, acc.2 ++ r.toList))
    (([], []) : List AgentState × List Report)

/-- The member-resolution comprehension of lines 368-371:
`[a['agent'] for a in st.session_state.agents if a['name'] in team_config['members']]`.
The subscript team_config['members'] is evaluated inside the filter,
so with no activated agents it is never evaluated at all. -/
def resolveMembers (agents : List AgentState) (cfg : Json) : Except String (List AgentObj) :=
  agents.foldlM
    (fun acc a => do
      let m ← pySubscript cfg "members"
      let b ← pyIn a.name m
      Except.ok (if b then acc ++ [a.agent] else acc))
    ([] : List AgentObj)

/-- One iteration of the team reconstruction loop (lines 366-391).
Fewer than two resolved members: the body is skipped entirely — no
team, no report.  Otherwise the try block constructs the team object
and the session entry from config subscripts; on an exception the
handler formats team_config['name'] (re-raising if that subscript
fails) and appends a warning instead. -/
def teamStep (agents : List AgentState) (acc : List TeamState × List Report) (cfg : Json) :
    Except String (List TeamState × List Report) := do
  let ras ← resolveMembers agents cfg
  if ras.length ≥ 2 then
    let body : Except String TeamState := do
      let n ← pySubscript cfg "name"
      let ins ← pySubscript cfg "instructions"
      let tobj : TeamObj := ⟨n, ras, ins⟩
      let n2 ← pySubscript cfg "name"
      let m2 ← pySubscript cfg "members"
      let i2 ← pySubscript cfg "instructions"
      let w ← pyGetD cfg "workflow" (Json.str "Sequential")
      Except.ok ⟨n2, m2, i2, w, tobj⟩
    match body with
    | Except.ok ts => Except.ok (acc.1 ++ [ts], acc.2)
    | Except.error _ => do
        let n ← pySubscript cfg "name"
        Except.ok (acc.1, acc.2 ++ [Report.teamWarning n])
  else
    Except.ok acc

/-- The teams reconstruction loop of lines 364-391. -/
def teamsStage (agents : List AgentState) (cfgs : List Json) :
    Except String (List TeamState × List Report) :=
  cfgs.foldlM (teamStep agents) (([], []) : List TeamState × List Report)

/-- The session state set up before any saved data is considered
(lines 323-328): empty collections and the OPENAI_API_KEY environment
value as the api key. -/
def emptySession (env : String) : SessionState :=
  ⟨[], [], [], Json.str env, []⟩

/-- The session-state initialization of lines 318-391.  A missing or
falsy loaded document leaves the empty session.  Otherwise the api key
is read with `.get` (raising AttributeError on a non-dict document),
and the three stages run in the fixed order custom tools, agents,
teams; the agents and teams stages are guarded by the presence of
their key and a truthy api key. -/
def initSession (saved : Option Json) (env : String) : Except String SessionState :=
  match saved with
  | none => Except.ok (emptySession env)
  | some j =>
      if j.truthy then do
        let key ← pyGetD j "api_key" (Json.str env)
        let (cts, r1) ←
          if hasKey j "custom_tools" then do
            let v ← pySubscript j "custom_tools"
            let items ← pyIter v
            toolsStage items
          else Except.ok ([], [])
        let (ags, r2) ←
          if hasKey j "agents" && key.truthy then do
            let v ← pySubscript j "agents"
            let items ← pyIter v
            agentsStage cts key items
          else Except.ok ([], [])
        let (tms, r3) ←
          if hasKey j "teams" && key.truthy then do
            let v ← pySubscript j "teams"
            let items ← pyIter v
            teamsStage ags items
          else Except.ok ([], [])
        Except.ok ⟨ags, tms, cts, key, r1 ++ r2 ++ r3⟩
      else Except.ok (emptySession env)

/-- The state of the configuration file when load_data runs: absent,
present but not valid JSON, or present with a parsed value. -/
inductive FileState where
  | absent : FileState
  | malformed : FileState
  | valid (j : Json) : FileState

/-- load_data (lines 218-234): returns the parsed document of an
existing JSON file, and None when the file is absent; any exception
(malformed JSON) is caught, reported, and turned into None.  (The
legacy pickle fallback of lines 227-230 is a second read path for a
file this code no longer writes; it is not modelled.) -/
def load_data : FileState → Option Json
  | FileState.absent => none
  | FileState.malformed => none
  | FileState.valid j => some j

/-- The whole startup path: load_data followed by the session-state
initialization. -/
def startup (fs : FileState) (env : String) : Except String SessionState :=
  initSession (load_data fs) env

/-- The agent serializer of save_data (lines 168-179): the eight data
fields, with `.get` defaults for the last four (the session entries
always carry all eight, so the fields are read directly). -/
def serializeAgent (a : AgentState) : Json :=
  Json.obj
    [("name", a.name), ("role", a.role), ("tools", a.tools),
     ("instructions", a.instructions), ("model", a.model),
     ("temperature", a.temperature), ("show_tool_calls", a.show_tool_calls),
     ("markdown", a.markdown)]

/-- The team serializer of save_data (lines 181-188). -/
def serializeTeam (t : TeamState) : Json :=
  Json.obj
    [("name", t.name), ("members", t.members),
     ("instructions", t.instructions), ("workflow", t.workflow)]

/-- The custom-tool serializer of save_data (lines 190-200): seven
direct subscripts of the stored config dict; a loaded config that
lacks one of them makes the subscript raise (caught by save_data's
try). -/
def serializeToolCfg (t : ToolState) : Except String Json := do
  let n ← pySubscript t.config "name"
  let d ← pySubscript t.config "description"
  let pn ← pySubscript t.config "param_name"
  let pt ← pySubscript t.config "param_type"
  let pd ← pySubscript t.config "param_description"
  let pr ← pySubscript t.config "param_required"
  let fc ← pySubscript t.config "function_code"
  Except.ok (Json.obj
    [("name", n), ("description", d), ("param_name", pn), ("param_type", pt),
     ("param_description", pd), ("param_required", pr), ("function_code", fc)])

/-- The document built by save_data (lines 202-207): the three record
arrays plus the api key, under the four fixed keys. -/
def serializeState (st : SessionState) : Except String Json := do
  let cts ← mapExcept serializeToolCfg st.custom_tools
  Except.ok (Json.obj
    [("agents", Json.arr (st.agents.map serializeAgent)),
     ("teams", Json.arr (st.teams.map serializeTeam)),
     ("custom_tools", Json.arr cts),
     ("api_key", st.api_key)])

/-- save_data (lines 164-216).  The try block serializes the session
state and writes the document; `io` is the file-write oracle (None =
success, an exception text otherwise).  Every exception — from
serialization or from the write — is caught and turned into the
return value False; the session state is never assigned to, so it is
returned unchanged in every case.  On success the written document is
returned alongside True. -/
def save_data (st : SessionState) (io : Json → Option String) :
    Bool × Option Json × SessionState :=
  match serializeState st with
  | Except.error _ => (false, none, st)
  | Except.ok doc =>
      match io doc with
      | none => (true, some doc, st)
      | some _ => (false, none, st)

/-- A valid agent record: the fields save_data serializes for one
agent (§3 AgentRecord, minus the live handle). -/
structure AgentRec where
  name : String
  role : String
  tools : List String
  instructions : List String
  model : String
  temperature : Rat
  show_tool_calls : Bool
  markdown : Bool
deriving BEq

/-- A valid team record: the fields save_data serializes for one
team. -/
structure TeamRec where
  name : String
  members : List String
  instructions : List String
  workflow : String
deriving BEq

/-- A valid custom-tool record: the seven fields save_data serializes
for one custom tool. -/
structure ToolRec where
  name : String
  description : String
  param_name : String
  param_type : String
  param_description : String
  param_required : Bool
  function_code : String
deriving BEq

/-- A Workspace: every agent, team and custom-tool record plus the
credential string — the aggregate save_data persists. -/
structure Workspace where
  agents : List AgentRec
  teams : List TeamRec
  custom_tools : List ToolRec
  api_key : String
deriving BEq

/-- The session entry of a typed agent record.  The live agent object
is derived state, excluded from serialization; it is equipped here
from the record's own fields (save_data never reads it). -/
def agentRecToState (r : AgentRec) : AgentState :=
  ⟨Json.str r.name, Json.str r.role, Json.arr (r.tools.map Json.str),
   Json.arr (r.instructions.map Json.str), Json.str r.model, Json.num r.temperature,
   Json.bool r.show_tool_calls, Json.bool r.markdown,
   ⟨Json.str r.name, Json.str r.role, Json.str r.model, Json.null, [],
    Json.arr (r.instructions.map Json.str), Json.bool r.show_tool_calls,
    Json.bool r.markdown, Json.num r.temperature⟩⟩

/-- The session entry of a typed team record (live team object derived
from the record's fields, excluded from serialization). -/
def teamRecToState (r : TeamRec) : TeamState :=
  ⟨Json.str r.name, Json.arr (r.members.map Json.str),
   Json.arr (r.instructions.map Json.str), Json.str r.workflow,
   ⟨Json.str r.name, [], Json.arr (r.instructions.map Json.str)⟩⟩

/-- The config dict of a typed custom-tool record, with the keys the
create-tool tab stores (lines 749-758, minus the live tool_obj). -/
def toolRecConfig (r : ToolRec) : Json :=
  Json.obj
    [("name", Json.str r.name), ("description", Json.str r.description),
     ("param_name", Json.str r.param_name), ("param_type", Json.str r.param_type),
     ("param_description", Json.str r.param_description),
     ("param_required", Json.bool r.param_required),
     ("function_code", Json.str r.function_code)]

/-- The session entry of a typed custom-tool record. -/
def toolRecToState (r : ToolRec) : ToolState :=
  ⟨toolRecConfig r,
   ⟨Json.str r.name, Json.str r.description, Json.str r.param_name,
    Json.str r.param_type, Json.str r.param_description, Json.str r.function_code⟩⟩

/-- The session state holding exactly the records of a Workspace. -/
def wsToSession (ws : Workspace) : SessionState :=
  ⟨ws.agents.map agentRecToState, ws.teams.map teamRecToState,
   ws.custom_tools.map toolRecToState, Json.str ws.api_key, []⟩

/-- The string under a Json string value, if it is one. -/
def Json.asStr : Json → Option String
  | .str s => some s
  | _ => none

/-- The boolean under a Json boolean value, if it is one. -/
def Json.asBool : Json → Option Bool
  | .bool b => some b
  | _ => none

/-- The number under a Json number value, if it is one. -/
def Json.asNum : Json → Option Rat
  | .num q => some q
  | _ => none

/-- The string list under a Json array of strings, if it is one. -/
def Json.asStrList : Json → Option (List String)
  | .arr xs => mapOption Json.asStr xs
  | _ => none

/-- Field access on a parsed document, as the reading code performs it
(dict subscript), returning the entry when the document is a dict. -/
def jField (j : Json) (k : String) : Option Json :=
  match j with
  | .obj fs => fs.lookup k
  | _ => none

/-- Read one agent record back from a stored agent dict, through the
same fields the reconstruction code reads (lines 352-362), requiring
the serialized types. -/
def readAgentRec (j : Json) : Option AgentRec := do
  let n ← (jField j "name").bind Json.asStr
  let ro ← (jField j "role").bind Json.asStr
  let ts ← (jField j "tools").bind Json.asStrList
  let ins ← (jField j "instructions").bind Json.asStrList
  let mid ← (jField j "model").bind Json.asStr
  let tp ← (jField j "temperature").bind Json.asNum
  let stc ← (jField j "show_tool_calls").bind Json.asBool
  let md ← (jField j "markdown").bind Json.asBool
  some ⟨n, ro, ts, ins, mid, tp, stc, md⟩

/-- Read one team record back from a stored team dict (the fields of
lines 383-388). -/
def readTeamRec (j : Json) : Option TeamRec := do
  let n ← (jField j "name").bind Json.asStr
  let ms ← (jField j "members").bind Json.asStrList
  let ins ← (jField j "instructions").bind Json.asStrList
  let w ← (jField j "workflow").bind Json.asStr
  some ⟨n, ms, ins, w⟩

/-- Read one custom-tool record back from a stored tool dict (the
fields of lines 192-199). -/
def readToolRec (j : Json) : Option ToolRec := do
  let n ← (jField j "name").bind Json.asStr
  let d ← (jField j "description").bind Json.asStr
  let pn ← (jField j "param_name").bind Json.asStr
  let pt ← (jField j "param_type").bind Json.asStr
  let pd ← (jField j "param_description").bind Json.asStr
  let pr ← (jField j "param_required").bind Json.asBool
  let fc ← (jField j "function_code").bind Json.asStr
  some ⟨n, d, pn, pt, pd, pr, fc⟩

/-- Read a whole Workspace back from a stored document: the four
top-level keys save_data writes, each record parsed field by field in
stored order. -/
def readWorkspace (j : Json) : Option Workspace := do
  let ags ← (jField j "agents").bind (fun v =>
    match v with
    | Json.arr xs => mapOption readAgentRec xs
    | _ => none)
  let tms ← (jField j "teams").bind (fun v =>
    match v with
    | Json.arr xs => mapOption readTeamRec xs
    | _ => none)
  let cts ← (jField j "custom_tools").bind (fun v =>
    match v with
    | Json.arr xs => mapOption readToolRec xs
    | _ => none)
  let key ← (jField j "api_key").bind Json.asStr
  some ⟨ags, tms, cts, key⟩

/-- The create/update action of the agent tab (lines 530-579).  With a
falsy api key or an empty name an error is shown and nothing changes.
Otherwise the selected tool names are resolved through the
available_tools dict of lines 481-489 (an unlisted name would raise
KeyError at line 537, outside the try), the Agent object is
constructed, and the entry either replaces the edited index or is
appended — with no check against existing names. -/
def createOrUpdateAgent (st : SessionState) (editing : Option Nat)
    (name role : String) (selected : List String) (instrs : List String)
    (modelSel : String) (temp : Rat) (stc md : Bool) :
    Except String SessionState :=
  if !st.api_key.truthy then Except.ok st
  else if name == "" then Except.ok st
  else do
    let env ← availableTools st.custom_tools
    let tools ← selected.foldlM
      (fun acc t =>
        match lookupTool env (Json.str t) with
        | some r => Except.ok (acc ++ [r])
        | none => Except.error "KeyError")
      ([] : List ToolRef)
    let a : AgentObj :=
      ⟨Json.str name, Json.str role, Json.str modelSel, st.api_key, tools,
       Json.arr (instrs.map Json.str), Json.bool stc, Json.bool md, Json.num temp⟩
    let entry : AgentState :=
      ⟨Json.str name, Json.str role, Json.arr (selected.map Json.str),
       Json.arr (instrs.map Json.str), Json.str modelSel, Json.num temp,
       Json.bool stc, Json.bool md, a⟩
    match editing with
    | some idx => Except.ok { st with agents := st.agents.set idx entry }
    | none => Except.ok { st with agents := st.agents ++ [entry] }

/-- The create action of the team tab (lines 582-663).  The tab is
inert with fewer than two agents; an empty name or fewer than two
selected members shows an error; otherwise the member agents are
collected with `a['name'] in selected_agents` (Python list membership)
and the team entry is appended — with no check against existing
names. -/
def createTeam (st : SessionState) (name : String) (selected : List String)
    (instrs : List String) (workflow : String) : SessionState :=
  if st.agents.length < 2 then st
  else if name == "" then st
  else if selected.length < 2 then st
  else
    let members := st.agents.foldl
      (fun acc a => if (selected.map Json.str).any (pyEq a.name) then acc ++ [a.agent] else acc)
      ([] : List AgentObj)
    { st with teams := st.teams ++
        [⟨Json.str name, Json.arr (selected.map Json.str),
          Json.arr (instrs.map Json.str), Json.str workflow,
          ⟨Json.str name, members, Json.arr (instrs.map Json.str)⟩⟩] }

/-- The create action of the custom-tool tab (lines 710-765): an empty
name, description or function body shows an error; otherwise the
DynamicTool is built and the entry appended — with no check against
existing names. -/
def createCustomTool (st : SessionState) (r : ToolRec) : SessionState :=
  if r.name == "" || r.description == "" || r.function_code == "" then st
  else { st with custom_tools := st.custom_tools ++ [toolRecToState r] }

/-- The delete action of the manage tab for agents (lines 881-884):
pop at the displayed index. -/
def deleteAgentAt (st : SessionState) (idx : Nat) : SessionState :=
  { st with agents := st.agents.eraseIdx idx }

/-- The delete action of the manage tab for teams (lines 899-902). -/
def deleteTeamAt (st : SessionState) (idx : Nat) : SessionState :=
  { st with teams := st.teams.eraseIdx idx }

/-- The delete action of the custom-tools tab (lines 778-781). -/
def deleteToolAt (st : SessionState) (idx : Nat) : SessionState :=
  { st with custom_tools := st.custom_tools.eraseIdx idx }

/-- A Python runtime value held in the locals dict of a custom tool
body: a string, or any other object (identified opaquely). -/
inductive PyVal where
  | str (s : String) : PyVal
  | other (id : Nat) : PyVal
deriving BEq

/-- The outcome of `exec(function_code, \x7b\x7d, local_vars)`: either an
exception with its text, or normal completion with the final locals
dict (the kwargs copy, possibly extended or mutated by the body). -/
inductive ExecOutcome where
  | raised (msg : String) : ExecOutcome
  | finished (locals : List (String × PyVal)) : ExecOutcome

/-- DynamicTool.execute (lines 284-290 and 723-731).  `strOf` is the
Python str() rendering of a locals dict; `outcome` is what exec did to
the kwargs copy.  The try block returns local_vars.get('result',
str(local_vars)); the except block returns the exception text behind
the prefix "Error: ".  The function is total: every path returns a
value. -/
def dynamicToolExecute (strOf : List (String × PyVal) → String)
    (outcome : ExecOutcome) : PyVal :=
  match outcome with
  | ExecOutcome.raised e => PyVal.str ("Error: " ++ e)
  | ExecOutcome.finished l =>
      match l.lookup "result" with
      | some v => v
      | none => PyVal.str (strOf l)

/-- The value subprocess.run returns (src/Projects/Powershell_Tool.py
lines 41-45): captured stdout and stderr text plus the exit status. -/
structure CompletedProcess where
  stdout : String
  stderr : String
  returncode : Int
deriving BEq

/-- PowerShellTool.execute (lines 40-46): run
["powershell", "-Command", command] through the subprocess oracle and
return `result.stdout or result.stderr` — stdout when it is non-empty
(truthy), stderr otherwise.  result.returncode is never read. -/
def powershellExecute (run : List String → CompletedProcess) (command : String) : String :=
  let result := run ["powershell", "-Command", command]
  if result.stdout != "" then result.stdout else result.stderr

/-! Theorems.  Each claim of the specification is settled below; helper
lemmas come first within each group. -/

theorem mapOption_asStr_map (l : List String) :
    mapOption Json.asStr (l.map Json.str) = some l := by
  induction l with
  | nil => rfl
  | cons h t ih => simp [mapOption, ih, Json.asStr]

theorem asStrList_map (l : List String) :
    Json.asStrList (Json.arr (l.map Json.str)) = some l := by
  simp [Json.asStrList, mapOption_asStr_map]

theorem readAgentRec_round (r : AgentRec) :
    readAgentRec (serializeAgent (agentRecToState r)) = some r := by
  cases r
  simp [readAgentRec, serializeAgent, agentRecToState, jField, List.lookup,
    Json.asStr, Json.asNum, Json.asBool, asStrList_map]

theorem readTeamRec_round (r : TeamRec) :
    readTeamRec (serializeTeam (teamRecToState r)) = some r := by
  cases r
  simp [readTeamRec, serializeTeam, teamRecToState, jField, List.lookup,
    Json.asStr, asStrList_map]

theorem serializeToolCfg_round (r : ToolRec) :
    serializeToolCfg (toolRecToState r) = Except.ok (toolRecConfig r) := by
  rfl

theorem readToolRec_round (r : ToolRec) :
    readToolRec (toolRecConfig r) = some r := by
  cases r
  simp [readToolRec, toolRecConfig, jField, List.lookup, Json.asStr, Json.asBool]

theorem mapOption_readAgentRec (l : List AgentRec) :
    mapOption readAgentRec (l.map (fun r => serializeAgent (agentRecToState r))) = some l := by
  induction l with
  | nil => rfl
  | cons h t ih => simp [mapOption, readAgentRec_round, ih]

theorem mapOption_readTeamRec (l : List TeamRec) :
    mapOption readTeamRec (l.map (fun r => serializeTeam (teamRecToState r))) = some l := by
  induction l with
  | nil => rfl
  | cons h t ih => simp [mapOption, readTeamRec_round, ih]

theorem mapOption_readToolRec (l : List ToolRec) :
    mapOption readToolRec (l.map toolRecConfig) = some l := by
  induction l with
  | nil => rfl
  | cons h t ih => simp [mapOption, readToolRec_round, ih]

theorem mapExcept_serializeToolCfg (l : List ToolRec) :
    mapExcept serializeToolCfg (l.map toolRecToState) = Except.ok (l.map toolRecConfig) := by
  induction l with
  | nil => rfl
  | cons h t ih =>
      simp only [List.map_cons, mapExcept, serializeToolCfg_round, ih]
      rfl

/-- Claim C1 (confirmed): for every Workspace — any lists of agent,
team and custom-tool records with the fields serialized by save_data,
plus the credential string — loading the JSON document produced by
save_data yields record dictionaries whose fields are exactly equal to
those of the saved records, with the sequence fields (tools,
instructions, members) preserved in order: reading every serialized
field back from the loaded document reconstructs the Workspace
exactly. -/
theorem c1_save_load_round_trip (ws : Workspace) :
    ∃ doc, serializeState (wsToSession ws) = Except.ok doc ∧
      load_data (FileState.valid doc) = some doc ∧
      readWorkspace doc = some ws := by
  cases ws with
  | mk ags tms cts key =>
    refine ⟨Json.obj
      [("agents", Json.arr (ags.map (fun r => serializeAgent (agentRecToState r)))),
       ("teams", Json.arr (tms.map (fun r => serializeTeam (teamRecToState r)))),
       ("custom_tools", Json.arr (cts.map toolRecConfig)),
       ("api_key", Json.str key)], ?_, rfl, ?_⟩
    · simp only [serializeState, wsToSession, List.map_map, mapExcept_serializeToolCfg]
      rfl
    · simp [readWorkspace, jField, List.lookup, mapOption_readAgentRec,
        mapOption_readTeamRec, mapOption_readToolRec, Json.asStr]

/-- Claim C2, counterexample: a stored document that is valid JSON of
the wrong type — here the bare number 5 — is returned by load_data
unvalidated, and the session-state initialization then calls `.get` on
it (line 334), raising AttributeError past the Configuration Store
boundary instead of falling back to an empty Workspace. -/
theorem c2_wrong_types_raise :
    startup (FileState.valid (Json.num 5)) "envkey" = Except.error "AttributeError" := by
  rfl

/-- Claim C2 (corrected, amended part): for every stored document that
is absent or contains malformed JSON, load_data returns None, no
exception propagates, and the process starts from the empty Workspace
(no agents, teams, or custom tools).  A present document of valid JSON
but wrong types, however, is handed to the initialization code
unvalidated and can raise there (see the counterexample). -/
theorem c2_absent_malformed_empty (env : String) :
    startup FileState.absent env = Except.ok (emptySession env) ∧
    startup FileState.malformed env = Except.ok (emptySession env) := by
  exact ⟨rfl, rfl⟩

/-- Claim C8 (confirmed): save_data never raises — it returns a
success flag — its result state is always the unchanged in-memory
session state, a write failure (or a serialization failure) yields the
failure indicator False with nothing written, and a successful write
stores exactly the serialized document. -/
theorem c8_save_failure_atomic (st : SessionState) (io : Json → Option String) :
    (save_data st io).2.2 = st ∧
    (∀ doc, serializeState st = Except.ok doc → io doc = none →
      save_data st io = (true, some doc, st)) ∧
    (∀ doc e, serializeState st = Except.ok doc → io doc = some e →
      save_data st io = (false, none, st)) ∧
    (∀ e, serializeState st = Except.error e →
      save_data st io = (false, none, st)) := by
  refine ⟨?_, ?_, ?_, ?_⟩
  · cases h : serializeState st with
    | error e => simp [save_data, h]
    | ok doc =>
        cases hio : io doc with
        | none => simp [save_data, h, hio]
        | some e => simp [save_data, h, hio]
  · intro doc h hio
    simp [save_data, h, hio]
  · intro doc e h hio
    simp [save_data, h, hio]
  · intro e h
    simp [save_data, h]

/-- Witness for C8: a concrete session state whose write fails with a
disk error is left unchanged and reported as a failure. -/
theorem c8_save_failure_atomic_witness :
    save_data (emptySession "k") (fun _ => some "disk full") =
      (false, none, emptySession "k") := by
  exact (c8_save_failure_atomic (emptySession "k") (fun _ => some "disk full")).2.2.1
    (Json.obj
      [("agents", Json.arr []), ("teams", Json.arr []),
       ("custom_tools", Json.arr []), ("api_key", Json.str "k")])
    "disk full" (by rfl) (by rfl)

/-- Claim C9 (confirmed): for every custom-tool function body outcome
and argument mapping, DynamicTool.execute is total — it returns a
value on every path instead of propagating an exception; a body that
raises produces the string "Error: " followed by the exception text, a
body that completes without binding `result` produces the str() form
of the locals mapping, and a bound `result` is returned as is. -/
theorem c9_dynamic_tool_execute_total (strOf : List (String × PyVal) → String)
    (outcome : ExecOutcome) :
    (∀ e, outcome = ExecOutcome.raised e →
      dynamicToolExecute strOf outcome = PyVal.str ("Error: " ++ e)) ∧
    (∀ l v, outcome = ExecOutcome.finished l → l.lookup "result" = some v →
      dynamicToolExecute strOf outcome = v) ∧
    (∀ l, outcome = ExecOutcome.finished l → l.lookup "result" = none →
      dynamicToolExecute strOf outcome = PyVal.str (strOf l)) := by
  refine ⟨?_, ?_, ?_⟩
  · intro e he
    subst he
    rfl
  · intro l v hl hr
    subst hl
    simp [dynamicToolExecute, hr]
  · intro l hl hr
    subst hl
    simp [dynamicToolExecute, hr]

/-- Witness for C9: a raising body yields the error string, a body
binding `result` yields that binding, and a body binding only other
locals yields the rendered locals dict. -/
theorem c9_dynamic_tool_execute_total_witness :
    dynamicToolExecute (fun _ => "localsdict") (ExecOutcome.raised "boom") =
      PyVal.str "Error: boom" ∧
    dynamicToolExecute (fun _ => "localsdict")
      (ExecOutcome.finished [("result", PyVal.str "fine")]) = PyVal.str "fine" ∧
    dynamicToolExecute (fun _ => "localsdict")
      (ExecOutcome.finished [("x", PyVal.other 0)]) = PyVal.str "localsdict" := by
  refine ⟨?_, ?_, ?_⟩
  · exact (c9_dynamic_tool_execute_total (fun _ => "localsdict")
      (ExecOutcome.raised "boom")).1 "boom" rfl
  · exact (c9_dynamic_tool_execute_total (fun _ => "localsdict")
      (ExecOutcome.finished [("result", PyVal.str "fine")])).2.1
      [("result", PyVal.str "fine")] (PyVal.str "fine") rfl rfl
  · exact (c9_dynamic_tool_execute_total (fun _ => "localsdict")
      (ExecOutcome.finished [("x", PyVal.other 0)])).2.2
      [("x", PyVal.other 0)] rfl rfl

/-- Claim C10 (confirmed): for every command string and every
subprocess outcome, PowerShellTool.execute returns the captured
standard output when it is non-empty and the captured standard error
otherwise; the exit status is never inspected — two outcomes agreeing
on stdout and stderr give the same result whatever their return
codes — so the exit status never causes a failure result. -/
theorem c10_powershell_output (run : List String → CompletedProcess) (command : String) :
    ((run ["powershell", "-Command", command]).stdout ≠ "" →
      powershellExecute run command = (run ["powershell", "-Command", command]).stdout) ∧
    ((run ["powershell", "-Command", command]).stdout = "" →
      powershellExecute run command = (run ["powershell", "-Command", command]).stderr) ∧
    (∀ run2 : List String → CompletedProcess,
      (run2 ["powershell", "-Command", command]).stdout =
        (run ["powershell", "-Command", command]).stdout →
      (run2 ["powershell", "-Command", command]).stderr =
        (run ["powershell", "-Command", command]).stderr →
      powershellExecute run2 command = powershellExecute run command) := by
  refine ⟨?_, ?_, ?_⟩
  · intro h
    simp [powershellExecute, h]
  · intro h
    simp [powershellExecute, h]
  · intro run2 h1 h2
    simp only [powershellExecute, h1, h2]

/-- Witness for C10: a run with non-empty stdout returns stdout; one
with empty stdout returns stderr; changing only the exit status does
not change the result. -/
theorem c10_powershell_output_witness :
    powershellExecute (fun _ => ⟨"out", "err", 1⟩) "dir" = "out" ∧
    powershellExecute (fun _ => ⟨"", "err", 0⟩) "dir" = "err" ∧
    powershellExecute (fun _ => ⟨"out", "err", 7⟩) "dir" =
      powershellExecute (fun _ => ⟨"out", "err", 1⟩) "dir" := by
  refine ⟨?_, ?_, ?_⟩
  · exact (c10_powershell_output (fun _ => ⟨"out", "err", 1⟩) "dir").1 (by decide)
  · exact (c10_powershell_output (fun _ => ⟨"", "err", 0⟩) "dir").2.1 (by rfl)
  · exact (c10_powershell_output (fun _ => ⟨"out", "err", 1⟩) "dir").2.2
      (fun _ => ⟨"out", "err", 7⟩) rfl rfl

theorem bindOk {α β : Type} (a : α) (f : α → Except String β) :
    (bind (Except.ok a) f : Except String β) = f a := rfl

theorem bindErr {α β : Type} (e : String) (f : α → Except String β) :
    (bind (Except.error e) f : Except String β) = Except.error e := rfl

/-- Claim C3, counterexample: a stored document with one activatable
agent "A" and a team "T" declaring members ["A", "B"] — only one of
which resolves — activates the agent, skips the team, and emits no
report at all: the under-sized team is skipped silently, not
"reported". -/
theorem c3_team_skip_counterexample :
    (initSession (some (Json.obj
      [("api_key", Json.str "k"),
       ("agents", Json.arr
         [Json.obj
           [("name", Json.str "A"), ("role", Json.str "r"),
            ("tools", Json.arr []), ("instructions", Json.arr [])]]),
       ("teams", Json.arr
         [Json.obj
           [("name", Json.str "T"),
            ("members", Json.arr [Json.str "A", Json.str "B"]),
            ("instructions", Json.arr [])]])])) "envkey").map
      (fun st => (st.agents.length, st.teams, st.reports)) =
    Except.ok (1, [], []) := by
  rfl

/-- Claim C3 (corrected, amended part): a team config whose declared
member names resolve to fewer than 2 already-activated agents is
silently skipped by the team reconstruction step — it is neither
constructed nor reported, and the state (hence the stored document,
which activation never writes) is unchanged; a team config with
exactly 2 resolved members and its name, members and instructions
fields present is always activated, appended after the existing
teams. -/
theorem c3_team_min_size (agents : List AgentState) (cts : List TeamState)
    (rs : List Report) (cfg : Json) (ras : List AgentObj)
    (h : resolveMembers agents cfg = Except.ok ras) :
    (ras.length < 2 → teamStep agents (cts, rs) cfg = Except.ok (cts, rs)) ∧
    (ras.length = 2 → ∀ n m ins w,
      pySubscript cfg "name" = Except.ok n →
      pySubscript cfg "members" = Except.ok m →
      pySubscript cfg "instructions" = Except.ok ins →
      pyGetD cfg "workflow" (Json.str "Sequential") = Except.ok w →
      teamStep agents (cts, rs) cfg =
        Except.ok (cts ++ [⟨n, m, ins, w, ⟨n, ras, ins⟩⟩], rs)) := by
  constructor
  · intro hlt
    unfold teamStep
    rw [h, bindOk]
    rw [if_neg (by omega)]
  · intro hlen n m ins w hn hm hi hw
    unfold teamStep
    rw [h, bindOk]
    rw [if_pos (by omega)]
    simp only [hn, hm, hi, hw, bindOk]

/-- Witness for C3: two activated agents "A" and "B", and a team
config declaring exactly those two members, is activated into a team
entry appended to the (empty) team list. -/
theorem c3_team_min_size_witness :
    teamStep
      [⟨Json.str "A", Json.str "r", Json.arr [], Json.arr [], Json.str "gpt-4",
        Json.num 1, Json.bool true, Json.bool true,
        ⟨Json.str "A", Json.str "r", Json.str "gpt-4", Json.str "k", [],
         Json.arr [], Json.bool true, Json.bool true, Json.num 1⟩⟩,
       ⟨Json.str "B", Json.str "r", Json.arr [], Json.arr [], Json.str "gpt-4",
        Json.num 1, Json.bool true, Json.bool true,
        ⟨Json.str "B", Json.str "r", Json.str "gpt-4", Json.str "k", [],
         Json.arr [], Json.bool true, Json.bool true, Json.num 1⟩⟩]
      ([], [])
      (Json.obj
        [("name", Json.str "T"),
         ("members", Json.arr [Json.str "A", Json.str "B"]),
         ("instructions", Json.arr [])]) =
    Except.ok
      ([⟨Json.str "T", Json.arr [Json.str "A", Json.str "B"], Json.arr [],
         Json.str "Sequential",
         ⟨Json.str "T",
          [⟨Json.str "A", Json.str "r", Json.str "gpt-4", Json.str "k", [],
            Json.arr [], Json.bool true, Json.bool true, Json.num 1⟩,
           ⟨Json.str "B", Json.str "r", Json.str "gpt-4", Json.str "k", [],
            Json.arr [], Json.bool true, Json.bool true, Json.num 1⟩],
          Json.arr []⟩⟩], []) := by
  exact (c3_team_min_size _ ([]) ([]) _ _ (by rfl)).2 (by rfl) _ _ _ _
    (by rfl) (by rfl) (by rfl) (by rfl)

/-- Claim C5 (code bug): the activation stages do run in the fixed
order custom tools, agents, teams, but the failure of a single record
is not always "reported, not raised": a custom-tool config that lacks
a 'name' key makes recreate_custom_tool's own except handler re-raise
(its error message subscripts tool_config['name']), aborting the whole
initialization — so the well-formed agent in the same document, which
activates on its own, is never reconstructed. -/
theorem c5_nameless_record_aborts_activation :
    initSession (some (Json.obj
      [("api_key", Json.str "k"),
       ("custom_tools", Json.arr [Json.obj []]),
       ("agents", Json.arr
         [Json.obj
           [("name", Json.str "Calc"), ("role", Json.str "r"),
            ("tools", Json.arr []), ("instructions", Json.arr [])]])])) "envkey" =
      Except.error "KeyError" ∧
    (initSession (some (Json.obj
      [("api_key", Json.str "k"),
       ("custom_tools", Json.arr []),
       ("agents", Json.arr
         [Json.obj
           [("name", Json.str "Calc"), ("role", Json.str "r"),
            ("tools", Json.arr []), ("instructions", Json.arr [])]])])) "envkey").map
      (fun st => (st.agents.map AgentState.name, st.reports)) =
    Except.ok ([Json.str "Calc"], []) := by
  exact ⟨rfl, rfl⟩

theorem resolveToolsFold (env : List (Json × ToolRef)) (ts : List Json) :
    (∀ t ∈ ts, pyHashable t = true) →
    ∀ acc : List ToolRef,
      ts.foldlM
        (fun acc t =>
          if pyHashable t then
            Except.ok (match lookupTool env t with
              | some r => acc ++ [r]
              | none => acc)
          else Except.error "TypeError")
        acc =
      Except.ok (acc ++ ts.filterMap (lookupTool env)) := by
  induction ts with
  | nil =>
      intro _ acc
      simp only [List.foldlM_nil, List.filterMap_nil, List.append_nil]
      rfl
  | cons t ts ih =>
      intro hh acc
      have ht : pyHashable t = true := hh t (List.mem_cons_self t ts)
      have htail : ∀ x ∈ ts, pyHashable x = true :=
        fun x hx => hh x (List.mem_cons_of_mem t hx)
      simp only [List.foldlM_cons, ht, if_pos, bindOk]
      cases hl : lookupTool env t with
      | some r =>
          rw [ih htail (acc ++ [r])]
          simp [List.filterMap_cons, hl]
      | none =>
          rw [ih htail acc]
          simp [List.filterMap_cons, hl]

/-- Claim C6 (confirmed): an agent config whose tool list contains
names that resolve to neither a built-in nor an activated custom tool
still activates successfully (no report, not fatal), and its resolved
tool list is exactly the image of the resolvable names, each
unresolved name silently dropped. -/
theorem c6_dangling_tool_dropped (customs : List ToolState) (key : Json)
    (cfg : Json) (env : List (Json × ToolRef)) (ts : List Json) (n ro ins : Json)
    (henv : availableTools customs = Except.ok env)
    (hts : pySubscript cfg "tools" = Except.ok (Json.arr ts))
    (hh : ∀ t ∈ ts, pyHashable t = true)
    (hn : pySubscript cfg "name" = Except.ok n)
    (hro : pySubscript cfg "role" = Except.ok ro)
    (hins : pySubscript cfg "instructions" = Except.ok ins) :
    ∃ a : AgentObj,
      recreate_agent_from_config customs key cfg = Except.ok (some a, none) ∧
      a.name = n ∧ a.role = ro ∧ a.instructions = ins ∧
      a.tools = ts.filterMap (lookupTool env) := by
  cases cfg with
  | obj fs =>
      unfold recreate_agent_from_config
      rw [henv, bindOk, hts, bindOk]
      simp only [pyIter, bindOk]
      rw [resolveToolsFold env ts hh [], bindOk]
      rw [hn, bindOk, hro, bindOk]
      simp only [pyGetD, bindOk]
      rw [hins, bindOk]
      exact ⟨_, rfl, rfl, rfl, rfl, rfl⟩
  | null => cases hts
  | bool b => cases hts
  | num q => cases hts
  | str s => cases hts
  | arr xs => cases hts

/-- Witness for C6: an agent config listing the built-in Calculator
and a dangling name resolves to exactly the Calculator tool and
activates without a report. -/
theorem c6_dangling_tool_dropped_witness :
    ∃ a : AgentObj,
      recreate_agent_from_config [] (Json.str "k")
        (Json.obj
          [("name", Json.str "Calc"), ("role", Json.str "r"),
           ("tools", Json.arr [Json.str "Calculator", Json.str "Nonexistent"]),
           ("instructions", Json.arr [])]) = Except.ok (some a, none) ∧
      a.tools = [ToolRef.builtin "CalculatorTool"] := by
  obtain ⟨a, hrec, _, _, _, htools⟩ :=
    c6_dangling_tool_dropped [] (Json.str "k")
      (Json.obj
        [("name", Json.str "Calc"), ("role", Json.str "r"),
         ("tools", Json.arr [Json.str "Calculator", Json.str "Nonexistent"]),
         ("instructions", Json.arr [])])
      builtinToolsList [Json.str "Calculator", Json.str "Nonexistent"]
      (Json.str "Calc") (Json.str "r") (Json.arr [])
      (by rfl) (by rfl) (by intro t ht; fin_cases ht <;> rfl)
      (by rfl) (by rfl) (by rfl)
  refine ⟨a, hrec, ?_⟩
  rw [htools]
  rfl

theorem lookupTool_foldl_init (k : Json) (l : List (Json × ToolRef)) :
    ∀ acc : Option ToolRef,
      l.foldl (fun acc p => if pyEq p.1 k then some p.2 else acc) acc =
        (match lookupTool l k with
          | some r => some r
          | none => acc) := by
  induction l with
  | nil => intro acc; simp [lookupTool]
  | cons p l ih =>
      intro acc
      show l.foldl _ (if pyEq p.1 k then some p.2 else acc) = _
      rw [ih]
      have hcons : lookupTool (p :: l) k =
          l.foldl (fun acc q => if pyEq q.1 k then some q.2 else acc)
            (if pyEq p.1 k then some p.2 else none) := rfl
      rw [hcons, ih]
      cases hl : lookupTool l k with
      | some r => rfl
      | none => cases hp : pyEq p.1 k <;> simp

theorem lookupTool_append (l1 l2 : List (Json × ToolRef)) (k : Json) :
    lookupTool (l1 ++ l2) k =
      (match lookupTool l2 k with
        | some r => some r
        | none => lookupTool l1 k) := by
  show (l1 ++ l2).foldl _ none = _
  rw [List.foldl_append]
  exact lookupTool_foldl_init k l2 _

theorem lookupTool_mem (k : Json) (l : List (Json × ToolRef)) :
    ∀ acc r, l.foldl (fun acc p => if pyEq p.1 k then some p.2 else acc) acc = some r →
      (∃ p ∈ l, p.2 = r) ∨ acc = some r := by
  induction l with
  | nil => intro acc r h; exact Or.inr h
  | cons p l ih =>
      intro acc r h
      rcases ih _ r h with hmem | hacc
      · rcases hmem with ⟨q, hq, hqr⟩
        exact Or.inl ⟨q, List.mem_cons_of_mem p hq, hqr⟩
      · have hacc2 : (if pyEq p.1 k = true then some p.2 else acc) = some r := hacc
        by_cases hp : pyEq p.1 k = true
        · rw [if_pos hp] at hacc2
          exact Or.inl ⟨p, List.mem_cons_self p l, (Option.some.injEq _ _).mp hacc2⟩
        · rw [if_neg hp] at hacc2
          exact Or.inr hacc2

theorem availableTools_shape (customs : List ToolState) :
    ∀ acc env,
      customs.foldlM
        (fun acc ct => do
          let n ← pySubscript ct.config "name"
          if pyHashable n then Except.ok (acc ++ [(n, ToolRef.custom ct.obj)])
          else Except.error "TypeError")
        acc = Except.ok env →
      ∃ ce, env = acc ++ ce ∧ ∀ p ∈ ce, ∃ t, p.2 = ToolRef.custom t := by
  induction customs with
  | nil =>
      intro acc env h
      refine ⟨[], ?_, by simp⟩
      have : acc = env := by
        have h' : (Except.ok acc : Except String (List (Json × ToolRef))) = Except.ok env := h
        exact (Except.ok.injEq _ _).mp h'
      simp [this]
  | cons ct cts ih =>
      intro acc env h
      rw [List.foldlM_cons] at h
      cases hn : pySubscript ct.config "name" with
      | error e => rw [hn, bindErr] at h; cases h
      | ok n =>
          rw [hn, bindOk] at h
          by_cases hh : pyHashable n = true
          · rw [if_pos hh, bindOk] at h
            rcases ih _ _ h with ⟨ce, hce, hcust⟩
            refine ⟨(n, ToolRef.custom ct.obj) :: ce, ?_, ?_⟩
            · rw [hce]
              simp
            · intro p hp
              rcases List.mem_cons.mp hp with rfl | hp2
              · exact ⟨ct.obj, rfl⟩
              · exact hcust p hp2
          · rw [if_neg hh, bindErr] at h
            cases h

/-- Claim C7 (confirmed): the available_tools dict registers the three
built-ins first and then every activated custom tool, so every entry
after the three built-ins is a custom tool, and whenever the
custom-tool portion resolves a name — in particular when a custom
tool's name equals a built-in name — the whole dict resolves that name
to a custom tool (the last-registered matching assignment, by the
overwrite semantics of lookupTool), never to the shadowed built-in. -/
theorem c7_custom_shadows_builtin (customs : List ToolState)
    (env : List (Json × ToolRef)) (h : availableTools customs = Except.ok env) :
    env.take 3 = builtinToolsList ∧
    (∀ p ∈ env.drop 3, ∃ t, p.2 = ToolRef.custom t) ∧
    (∀ k r, lookupTool (env.drop 3) k = some r →
      (∃ t, r = ToolRef.custom t) ∧ lookupTool env k = some r) := by
  rcases availableTools_shape customs builtinToolsList env h with ⟨ce, hce, hcust⟩
  have hlen : builtinToolsList.length = 3 := rfl
  have htake : env.take 3 = builtinToolsList := by
    rw [hce, ← hlen, List.take_left]
  have hdrop : env.drop 3 = ce := by
    rw [hce, ← hlen, List.drop_left]
  refine ⟨htake, ?_, ?_⟩
  · intro p hp
    exact hcust p (by rw [hdrop] at hp; exact hp)
  · intro k r hl
    rw [hdrop] at hl
    constructor
    · rcases lookupTool_mem k ce none r hl with ⟨p, hp, hpr⟩ | hfalse
      · rcases hcust p hp with ⟨t, ht⟩
        exact ⟨t, by rw [← hpr, ht]⟩
      · cases hfalse
    · rw [hce, lookupTool_append, hl]

/-- Witness for C7: one custom tool registered under the built-in name
"Calculator" shadows it — resolution yields the custom tool object. -/
theorem c7_custom_shadows_builtin_witness :
    lookupTool
      (builtinToolsList ++
        [(Json.str "Calculator",
          ToolRef.custom
            ⟨Json.str "Calculator", Json.str "d", Json.str "x",
             Json.str "string", Json.str "pd", Json.str "c"⟩)])
      (Json.str "Calculator") =
    some (ToolRef.custom
      ⟨Json.str "Calculator", Json.str "d", Json.str "x",
       Json.str "string", Json.str "pd", Json.str "c"⟩) := by
  exact ((c7_custom_shadows_builtin
    [⟨Json.obj [("name", Json.str "Calculator")],
      ⟨Json.str "Calculator", Json.str "d", Json.str "x",
       Json.str "string", Json.str "pd", Json.str "c"⟩⟩]
    (builtinToolsList ++
      [(Json.str "Calculator",
        ToolRef.custom
          ⟨Json.str "Calculator", Json.str "d", Json.str "x",
           Json.str "string", Json.str "pd", Json.str "c"⟩)])
    (by rfl)).2.2 (Json.str "Calculator")
    (ToolRef.custom
      ⟨Json.str "Calculator", Json.str "d", Json.str "x",
       Json.str "string", Json.str "pd", Json.str "c"⟩)
    (by rfl)).2

/-- Claim C4, counterexample: creating two agents with the same name
"A" in a fresh session (non-empty api key) appends both entries — the
agents collection then holds two records named "A", so names are not
unique within the collection. -/
theorem c4_duplicate_names_counterexample :
    ((createOrUpdateAgent (emptySession "k") none "A" "r" [] [] "gpt-4" 1 true true).bind
      (fun st1 => createOrUpdateAgent st1 none "A" "r" [] [] "gpt-4" 1 true true)).map
      (fun st => st.agents.map AgentState.name) =
      Except.ok [Json.str "A", Json.str "A"] ∧
    ¬ ([Json.str "A", Json.str "A"] : List Json).Nodup := by
  constructor
  · rfl
  · intro h
    exact (List.nodup_cons.mp h).1 (List.mem_singleton.mpr rfl)

theorem createAgent_shape (st : SessionState) (name role : String)
    (selected : List String) (instrs : List String) (modelSel : String)
    (temp : Rat) (stc md : Bool) (st' : SessionState) :
    createOrUpdateAgent st none name role selected instrs modelSel temp stc md =
      Except.ok st' →
    (st' = st ∧ st'.agents = st.agents) ∨
    (∃ entry : AgentState, entry.name = Json.str name ∧
      st'.agents = st.agents ++ [entry] ∧ st'.teams = st.teams ∧
      st'.custom_tools = st.custom_tools) := by
  intro h
  unfold createOrUpdateAgent at h
  by_cases hk : (!st.api_key.truthy) = true
  · rw [if_pos hk] at h
    exact Or.inl ⟨((Except.ok.injEq _ _).mp h).symm, by
      rw [← (Except.ok.injEq _ _).mp h]⟩
  · rw [if_neg hk] at h
    by_cases hn : (name == "") = true
    · rw [if_pos hn] at h
      exact Or.inl ⟨((Except.ok.injEq _ _).mp h).symm, by
        rw [← (Except.ok.injEq _ _).mp h]⟩
    · rw [if_neg hn] at h
      cases henv : availableTools st.custom_tools with
      | error e => rw [henv, bindErr] at h; cases h
      | ok env =>
          rw [henv, bindOk] at h
          cases htools : selected.foldlM
            (fun acc t =>
              match lookupTool env (Json.str t) with
              | some r => Except.ok (acc ++ [r])
              | none => Except.error "KeyError")
            ([] : List ToolRef) with
          | error e => rw [htools, bindErr] at h; cases h
          | ok tools =>
              rw [htools, bindOk] at h
              have h2 := (Except.ok.injEq _ _).mp h
              subst h2
              exact Or.inr ⟨_, rfl, rfl, rfl, rfl⟩

/-- Claim C4 (corrected, amended part): the create operations append
unconditionally and edits replace by index, with no uniqueness check
anywhere, so duplicate names can coexist (see the counterexample).
Uniqueness is an invariant only of the operations that cannot
introduce a duplicate: deleting any record preserves distinct names in
all three collections, and a create whose name is not already present
in its collection preserves them as well. -/
theorem c4_uniqueness_only_for_fresh_names :
    (∀ st st' name role sel ins mo tp stc md,
      createOrUpdateAgent st none name role sel ins mo tp stc md = Except.ok st' →
      Json.str name ∉ st.agents.map AgentState.name →
      (st.agents.map AgentState.name).Nodup →
      (st'.agents.map AgentState.name).Nodup) ∧
    (∀ st name sel ins wf,
      Json.str name ∉ st.teams.map TeamState.name →
      (st.teams.map TeamState.name).Nodup →
      ((createTeam st name sel ins wf).teams.map TeamState.name).Nodup) ∧
    (∀ st r,
      Json.str r.name ∉ st.custom_tools.map (fun t => t.obj.name) →
      (st.custom_tools.map (fun t => t.obj.name)).Nodup →
      ((createCustomTool st r).custom_tools.map (fun t => t.obj.name)).Nodup) ∧
    (∀ st idx, (st.agents.map AgentState.name).Nodup →
      ((deleteAgentAt st idx).agents.map AgentState.name).Nodup) ∧
    (∀ st idx, (st.teams.map TeamState.name).Nodup →
      ((deleteTeamAt st idx).teams.map TeamState.name).Nodup) ∧
    (∀ st idx, (st.custom_tools.map (fun t => t.obj.name)).Nodup →
      ((deleteToolAt st idx).custom_tools.map (fun t => t.obj.name)).Nodup) := by
  refine ⟨?_, ?_, ?_, ?_, ?_, ?_⟩
  · intro st st' name role sel ins mo tp stc md h hfresh hnd
    rcases createAgent_shape st name role sel ins mo tp stc md st' h with
      ⟨_, hsame⟩ | ⟨entry, hname, happ, _, _⟩
    · rw [hsame]; exact hnd
    · rw [happ, List.map_append, List.map_singleton, hname]
      simp only [List.nodup_append, List.nodup_singleton, true_and]
      refine ⟨hnd, ?_⟩
      intro a ha hb
      rw [List.mem_singleton] at hb
      subst hb
      exact hfresh ha
  · intro st name sel ins wf hfresh hnd
    unfold createTeam
    by_cases h1 : st.agents.length < 2
    · rw [if_pos h1]; exact hnd
    · rw [if_neg h1]
      by_cases h2 : (name == "") = true
      · rw [if_pos h2]; exact hnd
      · rw [if_neg h2]
        by_cases h3 : sel.length < 2
        · rw [if_pos h3]; exact hnd
        · rw [if_neg h3]
          simp only [List.map_append, List.map_singleton]
          simp only [List.nodup_append, List.nodup_singleton, true_and]
          refine ⟨hnd, ?_⟩
          intro a ha hb
          rw [List.mem_singleton] at hb
          subst hb
          exact hfresh ha
  · intro st r hfresh hnd
    unfold createCustomTool
    by_cases h1 : (r.name == "" || r.description == "" || r.function_code == "") = true
    · rw [if_pos h1]; exact hnd
    · rw [if_neg h1]
      simp only [List.map_append, List.map_singleton]
      simp only [List.nodup_append, List.nodup_singleton, true_and]
      refine ⟨hnd, ?_⟩
      intro a ha hb
      rw [List.mem_singleton] at hb
      subst hb
      exact hfresh ha
  · intro st idx hnd
    exact hnd.sublist ((List.eraseIdx_sublist st.agents idx).map AgentState.name)
  · intro st idx hnd
    exact hnd.sublist ((List.eraseIdx_sublist st.teams idx).map TeamState.name)
  · intro st idx hnd
    exact hnd.sublist ((List.eraseIdx_sublist st.custom_tools idx).map
      (fun t => t.obj.name))

/-- Witness for C4: on concrete states, a create with a fresh name and
a delete at an index each leave the collection's names distinct. -/
theorem c4_uniqueness_only_for_fresh_names_witness :
    (({ agents :=
          [⟨Json.str "B", Json.str "r", Json.arr [], Json.arr [],
            Json.str "gpt-4", Json.num 1, Json.bool true, Json.bool true,
            ⟨Json.str "B", Json.str "r", Json.str "gpt-4", Json.str "k", [],
             Json.arr [], Json.bool true, Json.bool true, Json.num 1⟩⟩],
        teams := [], custom_tools := [], api_key := Json.str "k",
        reports := [] } : SessionState).agents.map AgentState.name).Nodup ∧
    (((createTeam
        { agents :=
            [⟨Json.str "A", Json.str "r", Json.arr [], Json.arr [],
              Json.str "gpt-4", Json.num 1, Json.bool true, Json.bool true,
              ⟨Json.str "A", Json.str "r", Json.str "gpt-4", Json.str "k", [],
               Json.arr [], Json.bool true, Json.bool true, Json.num 1⟩⟩,
             ⟨Json.str "B", Json.str "r", Json.arr [], Json.arr [],
              Json.str "gpt-4", Json.num 1, Json.bool true, Json.bool true,
              ⟨Json.str "B", Json.str "r", Json.str "gpt-4", Json.str "k", [],
               Json.arr [], Json.bool true, Json.bool true, Json.num 1⟩⟩],
          teams := [], custom_tools := [], api_key := Json.str "k",
          reports := [] } "T" ["A", "B"] [] "Sequential").teams.map
        TeamState.name).Nodup) ∧
    (((createCustomTool (emptySession "k")
        ⟨"t", "d", "p", "string", "pd", true, "c"⟩).custom_tools.map
        (fun t => t.obj.name)).Nodup) ∧
    (((deleteAgentAt (emptySession "k") 0).agents.map AgentState.name).Nodup) ∧
    (((deleteTeamAt (emptySession "k") 0).teams.map TeamState.name).Nodup) ∧
    (((deleteToolAt (emptySession "k") 0).custom_tools.map
        (fun t => t.obj.name)).Nodup) := by
  refine ⟨?_, ?_, ?_, ?_, ?_, ?_⟩
  · exact c4_uniqueness_only_for_fresh_names.1 (emptySession "k") _
      "B" "r" [] [] "gpt-4" 1 true true (by rfl) (by simp [emptySession])
      (by simp [emptySession])
  · exact c4_uniqueness_only_for_fresh_names.2.1 _ "T" ["A", "B"] [] "Sequential"
      (by simp) (by simp)
  · exact c4_uniqueness_only_for_fresh_names.2.2.1 (emptySession "k")
      ⟨"t", "d", "p", "string", "pd", true, "c"⟩
      (by simp [emptySession]) (by simp [emptySession])
  · exact c4_uniqueness_only_for_fresh_names.2.2.2.1 (emptySession "k") 0
      (by simp [emptySession])
  · exact c4_uniqueness_only_for_fresh_names.2.2.2.2.1 (emptySession "k") 0
      (by simp [emptySession])
  · exact c4_uniqueness_only_for_fresh_names.2.2.2.2.2 (emptySession "k") 0
      (by simp [emptySession])
